import Mathlib

/-!
Verification development for the copa-litoral-backend repository.

The Go services run parameterized SQL against a relational store; here the
store is embedded as an explicit state value (lists of rows) and each service
method becomes a pure function from a state to either an error or a new
state.  Rows keep the domain columns of the corresponding table; the
created_at and updated_at bookkeeping columns (always overwritten with NOW()
by every statement) and store-assigned serial ids of child rows are not
modelled, and Go time.Time values are opaque integer timestamps, since no
service inspects them.  External library leaves (bcrypt comparison, JWT
generation, JSON decoding, date parsing, the custom validator regexes and
the HTML sanitizer) are abstracted as function parameters; every theorem
quantifies over all their behaviours.
-/

namespace CopaLitoral

/-- Opaque timestamp standing for a Go time.Time value. -/
abbrev DateTime := Int

/-- Row of the partidos table: domain columns of models.Partido
(src/models/partido.go) as read and written by the partido service. -/
structure Partido where
  id : Int
  torneoID : Int
  categoriaID : Int
  jugador1ID : Int
  jugador2ID : Int
  fase : String
  fechaAgendada : Option DateTime
  horaAgendada : Option DateTime
  propuestaFechaJ1 : Option DateTime
  propuestaHoraJ1 : Option DateTime
  propuestaFechaJ2 : Option DateTime
  propuestaHoraJ2 : Option DateTime
  propuestaAceptadaJ1 : Bool
  propuestaAceptadaJ2 : Bool
  estado : String
  resultadoSetsJ1 : Option Int
  resultadoSetsJ2 : Option Int
  ganadorID : Option Int
  perdedorID : Option Int
  resultadoAprobado : Bool
  deriving DecidableEq, Repr

/-- Row of the sets_partido table: the columns written by the insert in
partidoServiceImpl.ReportMatchResult (models.SetPartido, its store-assigned
id omitted). -/
structure SetPartido where
  partidoID : Int
  numeroSet : Int
  scoreJugador1 : Int
  scoreJugador2 : Int
  tieBreakJ1 : Option Int
  tieBreakJ2 : Option Int
  deriving DecidableEq, Repr

/-- Row of the usuarios table (models.Usuario).  The Go struct carries both
the transient plaintext password field (JSON input only) and the persisted
passwordHash column; both are kept since handlers.AuthHandler.Register moves
one into the other. -/
structure Usuario where
  id : Int
  nombreUsuario : String
  email : Option String
  password : String
  passwordHash : String
  rol : String
  jugadorID : Option Int
  deriving DecidableEq, Repr

/-- The persistent store as seen by the partido service: the partidos table
and the sets_partido table. -/
structure DBState where
  partidos : List Partido
  setsPartido : List SetPartido
  deriving DecidableEq, Repr

/-- Errors returned by the embedded services.  Each constructor stands for
one distinct Go error value:
partidoNoEncontrado is errors.New("partido no encontrado"),
jugadorNoParte is errors.New("el jugador no es parte de este partido"),
ganadorRequerido is errors.New("ganador_id es requerido"),
ganadorNoCorresponde is
errors.New("ganador_id no corresponde a ningun jugador del partido"),
credencialesInvalidas is errors.New("credenciales invalidas"),
and writeFailed k is an injected storage failure of the k-th write inside
the result-reporting transaction. -/
inductive ServiceError where
  | partidoNoEncontrado
  | jugadorNoParte
  | ganadorRequerido
  | ganadorNoCorresponde
  | credencialesInvalidas
  | writeFailed (k : Nat)
  deriving DecidableEq, Repr

instance {ε α : Type} [DecidableEq ε] [DecidableEq α] : DecidableEq (Except ε α)
  | Except.ok a, Except.ok b =>
    if h : a = b then isTrue (by rw [h])
    else isFalse (fun hh => h (Except.ok.inj hh))
  | Except.ok _, Except.error _ => isFalse (fun hh => Except.noConfusion hh)
  | Except.error _, Except.ok _ => isFalse (fun hh => Except.noConfusion hh)
  | Except.error e, Except.error e2 =>
    if h : e = e2 then isTrue (by rw [h])
    else isFalse (fun hh => h (Except.error.inj hh))

/-- SELECT ... FROM partidos p ... WHERE p.id = $1 via QueryRow: the first
row with the given id, or the not-found error
(partidoServiceImpl.GetPartidoByID). -/
def getPartidoByID (db : DBState) (id : Int) : Except ServiceError Partido :=
  match db.partidos.find? (fun p => p.id == id) with
  | some p => Except.ok p
  | none => Except.error ServiceError.partidoNoEncontrado

/-- UPDATE partidos SET ... WHERE id = $n: apply f to every row whose id
matches. -/
def updateWhereID (partidos : List Partido) (id : Int) (f : Partido → Partido) :
    List Partido :=
  partidos.map (fun p => if p.id == id then f p else p)

/-- Number of rows an UPDATE ... WHERE id = $n touches (RowsAffected). -/
def rowsWithID (partidos : List Partido) (id : Int) : Nat :=
  partidos.countP (fun p => p.id == id)

/-- Result state of a service call: the new store on success, the old store
on error (an error either happens before any write or rolls the transaction
back). -/
def applyResult (db : DBState) (r : Except ServiceError DBState) : DBState :=
  match r with
  | Except.ok db2 => db2
  | Except.error _ => db

/-- Row change of the UPDATE issued by ProposeMatchTime when the caller is
jugador1: SET propuesta_fecha_j1 = $1, propuesta_hora_j1 = $2. -/
def proposeSlot1 (fecha hora : DateTime) (p : Partido) : Partido :=
  { p with propuestaFechaJ1 := some fecha, propuestaHoraJ1 := some hora }

/-- Row change of the UPDATE issued by ProposeMatchTime when the caller is
jugador2: SET propuesta_fecha_j2 = $1, propuesta_hora_j2 = $2. -/
def proposeSlot2 (fecha hora : DateTime) (p : Partido) : Partido :=
  { p with propuestaFechaJ2 := some fecha, propuestaHoraJ2 := some hora }

/-- partidoServiceImpl.ProposeMatchTime
(src/services/partido_service.go): load the match, reject a caller who is
neither assigned player, then write the proposal columns of the slot
belonging to the caller (slot 1 when the caller is jugador1, else slot 2);
an update that touches zero rows reports the not-found error. -/
def ProposeMatchTime (db : DBState) (partidoID jugadorID : Int)
    (fecha hora : DateTime) : Except ServiceError DBState :=
  match getPartidoByID db partidoID with
  | Except.error e => Except.error e
  | Except.ok partido =>
    if partido.jugador1ID ≠ jugadorID ∧ partido.jugador2ID ≠ jugadorID then
      Except.error ServiceError.jugadorNoParte
    else if rowsWithID db.partidos partidoID = 0 then
      Except.error ServiceError.partidoNoEncontrado
    else if partido.jugador1ID = jugadorID then
      Except.ok { db with partidos := updateWhereID db.partidos partidoID (proposeSlot1 fecha hora) }
    else
      Except.ok { db with partidos := updateWhereID db.partidos partidoID (proposeSlot2 fecha hora) }

/-- Row change of the UPDATE issued by AcceptMatchTime when the caller is
jugador1: SET propuesta_aceptada_j1 = true. -/
def acceptSlot1 (p : Partido) : Partido := { p with propuestaAceptadaJ1 := true }

/-- Row change of the UPDATE issued by AcceptMatchTime when the caller is
jugador2: SET propuesta_aceptada_j2 = true. -/
def acceptSlot2 (p : Partido) : Partido := { p with propuestaAceptadaJ2 := true }

/-- partidoServiceImpl.AcceptMatchTime: load the match, reject a caller who
is neither assigned player, then set the acceptance flag of the slot
belonging to the caller to true (slot 1 when the caller is jugador1, else
slot 2).  Nothing else is written: in particular the agreed schedule columns
fecha_agendada and hora_agendada are not touched. -/
def AcceptMatchTime (db : DBState) (partidoID jugadorID : Int) :
    Except ServiceError DBState :=
  match getPartidoByID db partidoID with
  | Except.error e => Except.error e
  | Except.ok partido =>
    if partido.jugador1ID ≠ jugadorID ∧ partido.jugador2ID ≠ jugadorID then
      Except.error ServiceError.jugadorNoParte
    else if rowsWithID db.partidos partidoID = 0 then
      Except.error ServiceError.partidoNoEncontrado
    else if partido.jugador1ID = jugadorID then
      Except.ok { db with partidos := updateWhereID db.partidos partidoID acceptSlot1 }
    else
      Except.ok { db with partidos := updateWhereID db.partidos partidoID acceptSlot2 }

/-- The set-insert loop of partidoServiceImpl.ReportMatchResult inside the
transaction: the k-th insert (counting the match update as write 0) may be
failed by the oracle failAt; each inserted row carries the enclosing match
id.  Returns the rows that the loop inserts, or the first failure. -/
def insertSetsTx (failAt : Nat → Bool) (partidoID : Int) :
    List SetPartido → Nat → Except ServiceError (List SetPartido)
  | [], _ => Except.ok []
  | s :: rest, k =>
    if failAt k then Except.error (ServiceError.writeFailed k)
    else
      match insertSetsTx failAt partidoID rest (k + 1) with
      | Except.error e => Except.error e
      | Except.ok tail => Except.ok ({ s with partidoID := partidoID } :: tail)

/-- Row change of the match UPDATE inside the result-reporting transaction:
SET resultado_sets_j1, resultado_sets_j2, ganador_id, perdedor_id and
estado = the literal "finalizado". -/
def reportUpdate (setsGanadosJ1 setsGanadosJ2 ganadorID perdedorID : Int)
    (p : Partido) : Partido :=
  { p with resultadoSetsJ1 := some setsGanadosJ1,
           resultadoSetsJ2 := some setsGanadosJ2,
           ganadorID := some ganadorID,
           perdedorID := some perdedorID,
           estado := "finalizado" }

/-- The write phase of the result-reporting transaction: write 0 updates the
match row (set counts, winner, loser, estado set to the literal
"finalizado"), writes 1.. insert the provided set rows.  Any failure
surfaces as an error and, because the new state is only returned on success,
leaves the store untouched, mirroring the deferred tx.Rollback. -/
def reportWrites (db : DBState) (failAt : Nat → Bool)
    (partidoID setsGanadosJ1 setsGanadosJ2 ganadorID perdedorID : Int)
    (sets : List SetPartido) : Except ServiceError DBState :=
  if failAt 0 then Except.error (ServiceError.writeFailed 0)
  else
    match insertSetsTx failAt partidoID sets 1 with
    | Except.error e => Except.error e
    | Except.ok inserted =>
      Except.ok
        { partidos := updateWhereID db.partidos partidoID
            (reportUpdate setsGanadosJ1 setsGanadosJ2 ganadorID perdedorID),
          setsPartido := db.setsPartido ++ inserted }

/-- partidoServiceImpl.ReportMatchResult: inside one transaction, reject a
zero winner id ("ganador_id es requerido"), load the match, infer the loser
as the other assigned player, rejecting a winner who is neither assigned
player, then update the match row and insert the set rows; the whole
transaction commits or rolls back as one. -/
def ReportMatchResult (db : DBState) (failAt : Nat → Bool)
    (partidoID setsGanadosJ1 setsGanadosJ2 ganadorID : Int)
    (sets : List SetPartido) : Except ServiceError DBState :=
  if ganadorID = 0 then Except.error ServiceError.ganadorRequerido
  else
    match getPartidoByID db partidoID with
    | Except.error e => Except.error e
    | Except.ok partido =>
      if ganadorID = partido.jugador1ID then
        reportWrites db failAt partidoID setsGanadosJ1 setsGanadosJ2
          ganadorID partido.jugador2ID sets
      else if ganadorID = partido.jugador2ID then
        reportWrites db failAt partidoID setsGanadosJ1 setsGanadosJ2
          ganadorID partido.jugador1ID sets
      else Except.error ServiceError.ganadorNoCorresponde

/-- Row change of the UPDATE issued by ApproveResult:
SET resultado_aprobado = true. -/
def approveUpdate (p : Partido) : Partido := { p with resultadoAprobado := true }

/-- partidoServiceImpl.ApproveResult: UPDATE partidos SET
resultado_aprobado = true WHERE id = $1; zero touched rows reports the
not-found error.  There is no precondition on the result columns. -/
def ApproveResult (db : DBState) (partidoID : Int) :
    Except ServiceError DBState :=
  if rowsWithID db.partidos partidoID = 0 then
    Except.error ServiceError.partidoNoEncontrado
  else
    Except.ok { db with partidos := updateWhereID db.partidos partidoID approveUpdate }

/-- The store after one ApproveResult call (old store when the call
errors). -/
def approveResultStep (db : DBState) (partidoID : Int) : DBState :=
  applyResult db (ApproveResult db partidoID)

/-- authServiceImpl.LoginUser (src/services/auth_service.go): look the user
up by username; a missing row and a failed hash comparison both return the
same credenciales-invalidas error; on success the signed token produced by
GenerateJWT from the stored id and role is returned.  The bcrypt comparison
and the JWT generator are abstract parameters. -/
def LoginUser (usuarios : List Usuario)
    (checkPasswordHash : String → String → Bool)
    (generateJWT : Int → String → Except ServiceError String)
    (username password : String) : Except ServiceError String :=
  match usuarios.find? (fun u => u.nombreUsuario == username) with
  | none => Except.error ServiceError.credencialesInvalidas
  | some user =>
    if checkPasswordHash password user.passwordHash then
      generateJWT user.id user.rol
    else Except.error ServiceError.credencialesInvalidas

/-- Body of the propose-time request as decoded by
PartidoHandler.ProposeMatchTime. -/
structure ProposeTimeBody where
  fecha : String
  hora : String
  deriving DecidableEq, Repr

/-- Observable outcome of PartidoHandler.ProposeMatchTime: either an early
400 response, or the call into
partidoService.ProposeMatchTime with the argument values the handler
passes. -/
inductive ProposeOutcome where
  | badRequest (msg : String)
  | callService (partidoID jugadorID : Int) (fecha hora : DateTime)
  deriving DecidableEq, Repr

/-- Observable outcome of PartidoHandler.AcceptMatchTime: either an early
400 response, or the call into partidoService.AcceptMatchTime with the
argument values the handler passes. -/
inductive AcceptOutcome where
  | badRequest (msg : String)
  | callService (partidoID jugadorID : Int)
  deriving DecidableEq, Repr

/-- PartidoHandler.ProposeMatchTime (src/handlers, partido handler): parse
the id path variable, set the acting player id to the literal 1 (the JWT
context placeholder), decode the body, parse the date and the time, then
call the service.  The verified credential subject authUserID is available
to the handler but never read. -/
def proposeMatchTimeHandler (atoi : String → Option Int)
    (decodeBody : String → Option ProposeTimeBody)
    (parseFecha : String → Option DateTime)
    (parseHora : String → Option DateTime)
    (idVar : String) (body : String) (authUserID : Int) : ProposeOutcome :=
  match atoi idVar with
  | none => ProposeOutcome.badRequest "ID de partido invalido"
  | some partidoID =>
    let jugadorID : Int := 1
    match decodeBody body with
    | none => ProposeOutcome.badRequest "Datos JSON invalidos"
    | some req =>
      match parseFecha req.fecha with
      | none => ProposeOutcome.badRequest "Formato de fecha invalido"
      | some fecha =>
        match parseHora req.hora with
        | none => ProposeOutcome.badRequest "Formato de hora invalido"
        | some hora => ProposeOutcome.callService partidoID jugadorID fecha hora

/-- PartidoHandler.AcceptMatchTime: parse the id path variable, set the
acting player id to the literal 1 (the JWT context placeholder), then call
the service.  The verified credential subject authUserID is available to
the handler but never read. -/
def acceptMatchTimeHandler (atoi : String → Option Int)
    (idVar : String) (authUserID : Int) : AcceptOutcome :=
  match atoi idVar with
  | none => AcceptOutcome.badRequest "ID de partido invalido"
  | some partidoID =>
    let jugadorID : Int := 1
    AcceptOutcome.callService partidoID jugadorID

/-- utils.ValidateStruct on models.Usuario: the validate tags require
nombre_usuario (non-empty, rune length between 3 and 50, and the two custom
denylist filters no_sql_injection and safe_string, abstracted as
parameters), password (non-empty, rune length between 6 and 100), and rol
(non-empty and one of administrador or jugador). -/
def validateUsuario (noSQLInjection safeString : String → Bool)
    (u : Usuario) : Bool :=
  (u.nombreUsuario != "" && decide (3 ≤ u.nombreUsuario.length)
      && decide (u.nombreUsuario.length ≤ 50)
      && noSQLInjection u.nombreUsuario && safeString u.nombreUsuario)
    && (u.password != "" && decide (6 ≤ u.password.length)
      && decide (u.password.length ≤ 100))
    && (u.rol != "" && (u.rol == "administrador" || u.rol == "jugador"))

/-- HTTP-visible outcome of AuthHandler.Register before the service layer:
either an early 400 response or the invocation of
authService.RegisterUser. -/
inductive RegisterOutcome where
  | badRequest (msg : String)
  | serviceCalled
  deriving DecidableEq, Repr

/-- AuthHandler.Register (src/handlers/auth_handler.go): decode and validate
the JSON body (utils.ParseAndValidateJSON; a decode or validation failure is
a 400 response), sanitize the username, reject an empty password with a 400,
move the password into the hash field, default an empty role to "jugador",
then call RegisterUser.  The second component is the record handed to
RegisterUser (none when the handler answered 400 before the call).  The body
argument is none when the JSON does not decode; a JSON body that omits the
rol field decodes to the Go zero value, rol = "". -/
def registerHandler (noSQLInjection safeString : String → Bool)
    (sanitizeString : String → String) (body : Option Usuario) :
    RegisterOutcome × Option Usuario :=
  match body with
  | none => (RegisterOutcome.badRequest "Datos invalidos", none)
  | some u0 =>
    if validateUsuario noSQLInjection safeString u0 then
      let u1 := { u0 with nombreUsuario := sanitizeString u0.nombreUsuario }
      if u1.password == "" then
        (RegisterOutcome.badRequest "Password es requerido", none)
      else
        let u2 := { u1 with passwordHash := u1.password, password := "" }
        let u3 := if u2.rol == "" then { u2 with rol := "jugador" } else u2
        (RegisterOutcome.serviceCalled, some u3)
    else (RegisterOutcome.badRequest "Datos invalidos", none)

/-- Concrete match row used to evaluate the theorems on explicit inputs. -/
def samplePartido : Partido :=
  { id := 10, torneoID := 1, categoriaID := 1, jugador1ID := 1,
    jugador2ID := 2, fase := "final",
    fechaAgendada := none, horaAgendada := none,
    propuestaFechaJ1 := none, propuestaHoraJ1 := none,
    propuestaFechaJ2 := none, propuestaHoraJ2 := none,
    propuestaAceptadaJ1 := false, propuestaAceptadaJ2 := false,
    estado := "agendado",
    resultadoSetsJ1 := none, resultadoSetsJ2 := none,
    ganadorID := none, perdedorID := none,
    resultadoAprobado := false }

/-- Concrete store holding the one sample match and no set rows. -/
def sampleDB : DBState := { partidos := [samplePartido], setsPartido := [] }

/-- Concrete set row used to evaluate the theorems on explicit inputs. -/
def sampleSet : SetPartido :=
  { partidoID := 0, numeroSet := 1, scoreJugador1 := 6, scoreJugador2 := 4,
    tieBreakJ1 := none, tieBreakJ2 := none }

/-- Concrete account row used to evaluate the login theorems. -/
def sampleUsuario : Usuario :=
  { id := 1, nombreUsuario := "admin", email := none, password := "",
    passwordHash := "storedhash", rol := "administrador", jugadorID := none }

/-- The store a successful ReportMatchResult commits: the match row rewritten
by reportUpdate and one set row appended per provided set, each carrying the
match id. -/
def reportedDB (db : DBState)
    (partidoID setsGanadosJ1 setsGanadosJ2 ganadorID perdedorID : Int)
    (sets : List SetPartido) : DBState :=
  { partidos := updateWhereID db.partidos partidoID (reportUpdate setsGanadosJ1 setsGanadosJ2 ganadorID perdedorID),
    setsPartido := db.setsPartido ++ sets.map (fun s => { s with partidoID := partidoID }) }

/-- Concrete register request whose JSON body left the rol field empty. -/
def registroSinRol : Usuario :=
  { sampleUsuario with password := "secret1", rol := "" }

/-- Concrete register request carrying a valid rol. -/
def registroConRol : Usuario :=
  { sampleUsuario with password := "secret1", rol := "jugador" }

/-- The record AuthHandler.Register hands to RegisterUser for the request
registroConRol: password moved into the hash field, rol untouched. -/
def registroEsperado : Usuario :=
  { sampleUsuario with password := "", passwordHash := "secret1", rol := "jugador" }

/-! Store lemmas: how lookups, row counts and membership interact with a
row update keyed on the same id. -/

theorem getPartidoByID_eq_ok (db : DBState) (pid : Int) (p : Partido) :
    getPartidoByID db pid = Except.ok p ↔
      db.partidos.find? (fun q => q.id == pid) = some p := by
  unfold getPartidoByID
  cases h : db.partidos.find? (fun q => q.id == pid) <;> simp [h]

theorem find?_updateWhereID (l : List Partido) (pid : Int)
    (f : Partido → Partido) (hf : ∀ p, (f p).id = p.id) :
    (updateWhereID l pid f).find? (fun q => q.id == pid)
      = (l.find? (fun q => q.id == pid)).map f := by
  induction l with
  | nil => rfl
  | cons p l ih =>
    by_cases hp : p.id = pid
    · have h1 : (p.id == pid) = true := by simp [hp]
      have h2 : ((f p).id == pid) = true := by simp [hf p, hp]
      rw [show updateWhereID (p :: l) pid f
            = f p :: updateWhereID l pid f by simp [updateWhereID, hp]]
      simp only [List.find?, h1, h2]
      rfl
    · have h1 : (p.id == pid) = false := by simp [hp]
      rw [show updateWhereID (p :: l) pid f
            = p :: updateWhereID l pid f by simp [updateWhereID, hp]]
      simp only [List.find?, h1]
      exact ih

theorem getPartidoByID_update (db : DBState) (pid : Int)
    (f : Partido → Partido) (hf : ∀ p, (f p).id = p.id)
    (sets2 : List SetPartido) :
    getPartidoByID { partidos := updateWhereID db.partidos pid f,
                     setsPartido := sets2 } pid
      = (getPartidoByID db pid).map f := by
  unfold getPartidoByID
  rw [show ({ partidos := updateWhereID db.partidos pid f, setsPartido := sets2 } : DBState).partidos = updateWhereID db.partidos pid f from rfl]
  rw [find?_updateWhereID db.partidos pid f hf]
  cases h : db.partidos.find? (fun q => q.id == pid) <;> simp [h, Except.map]

theorem rowsWithID_ne_zero_of_find? (l : List Partido) (pid : Int)
    (p : Partido) (h : l.find? (fun q => q.id == pid) = some p) :
    ¬ rowsWithID l pid = 0 := by
  have hmem := List.mem_of_find?_eq_some h
  have hpred := List.find?_some h
  unfold rowsWithID
  have hpos : 0 < l.countP (fun q => q.id == pid) :=
    List.countP_pos_iff.mpr ⟨p, hmem, hpred⟩
  omega

theorem mem_updateWhereID_of_ne (l : List Partido) (pid : Int)
    (f : Partido → Partido) (q : Partido) (hq : q ∈ l) (hne : q.id ≠ pid) :
    q ∈ updateWhereID l pid f := by
  have := List.mem_map_of_mem (fun p => if p.id == pid then f p else p) hq
  simpa [updateWhereID, hne] using this

theorem rowsWithID_updateWhereID (l : List Partido) (pid : Int)
    (f : Partido → Partido) (hf : ∀ p, (f p).id = p.id) :
    rowsWithID (updateWhereID l pid f) pid = rowsWithID l pid := by
  induction l with
  | nil => rfl
  | cons p l ih =>
    by_cases hp : p.id = pid
    · rw [show updateWhereID (p :: l) pid f
            = f p :: updateWhereID l pid f by simp [updateWhereID, hp]]
      rw [show rowsWithID (f p :: updateWhereID l pid f) pid
            = rowsWithID (updateWhereID l pid f) pid + 1 by
          simp [rowsWithID, List.countP_cons, hf p, hp]]
      rw [show rowsWithID (p :: l) pid = rowsWithID l pid + 1 by
          simp [rowsWithID, List.countP_cons, hp]]
      rw [ih]
    · rw [show updateWhereID (p :: l) pid f
            = p :: updateWhereID l pid f by simp [updateWhereID, hp]]
      rw [show rowsWithID (p :: updateWhereID l pid f) pid
            = rowsWithID (updateWhereID l pid f) pid by
          simp [rowsWithID, List.countP_cons, hp]]
      rw [show rowsWithID (p :: l) pid = rowsWithID l pid by
          simp [rowsWithID, List.countP_cons, hp]]
      rw [ih]

theorem updateWhereID_self_comp (l : List Partido) (pid : Int)
    (f : Partido → Partido) (hf : ∀ p, (f p).id = p.id)
    (hff : ∀ p, f (f p) = f p) :
    updateWhereID (updateWhereID l pid f) pid f = updateWhereID l pid f := by
  induction l with
  | nil => rfl
  | cons p l ih =>
    by_cases hp : p.id = pid
    · rw [show updateWhereID (p :: l) pid f
            = f p :: updateWhereID l pid f by simp [updateWhereID, hp]]
      rw [show updateWhereID (f p :: updateWhereID l pid f) pid f
            = f (f p) :: updateWhereID (updateWhereID l pid f) pid f by
          simp [updateWhereID, hf p, hp]]
      rw [ih, hff p]
    · rw [show updateWhereID (p :: l) pid f
            = p :: updateWhereID l pid f by simp [updateWhereID, hp]]
      rw [show updateWhereID (p :: updateWhereID l pid f) pid f
            = p :: updateWhereID (updateWhereID l pid f) pid f by
          simp [updateWhereID, hp]]
      rw [ih]

theorem insertSetsTx_ok_eq (failAt : Nat → Bool) (pid : Int) :
    ∀ (sets : List SetPartido) (k : Nat) (l : List SetPartido),
      insertSetsTx failAt pid sets k = Except.ok l →
      l = sets.map (fun s => { s with partidoID := pid }) := by
  intro sets
  induction sets with
  | nil =>
    intro k l h
    unfold insertSetsTx at h
    simpa using (Except.ok.inj h).symm
  | cons s rest ih =>
    intro k l h
    unfold insertSetsTx at h
    by_cases hfk : failAt k
    · rw [if_pos hfk] at h
      exact absurd h (fun hh => Except.noConfusion hh)
    · rw [if_neg hfk] at h
      cases hrec : insertSetsTx failAt pid rest (k + 1) with
      | error e =>
        rw [hrec] at h
        exact absurd h (fun hh => Except.noConfusion hh)
      | ok tail =>
        rw [hrec] at h
        have hl : ({ s with partidoID := pid } : SetPartido) :: tail = l :=
          Except.ok.inj h
        rw [← hl, List.map_cons, ih (k + 1) tail hrec]

theorem insertSetsTx_ok_of_nofail (failAt : Nat → Bool) (pid : Int) :
    ∀ (sets : List SetPartido) (k : Nat),
      (∀ j, k ≤ j → j < k + sets.length → failAt j = false) →
      insertSetsTx failAt pid sets k
        = Except.ok (sets.map (fun s => { s with partidoID := pid })) := by
  intro sets
  induction sets with
  | nil => intro k hk; rfl
  | cons s rest ih =>
    intro k hk
    have hfk : failAt k = false := hk k (Nat.le_refl k) (by simp)
    unfold insertSetsTx
    rw [if_neg (by simp [hfk])]
    rw [ih (k + 1) (fun j hj1 hj2 => hk j (Nat.le_of_succ_le hj1)
      (by simpa [Nat.add_comm, Nat.add_left_comm, Nat.add_assoc] using hj2))]
    rfl

theorem insertSetsTx_error_of_fail (failAt : Nat → Bool) (pid : Int) :
    ∀ (sets : List SetPartido) (k j : Nat), k ≤ j → j < k + sets.length →
      failAt j = true →
      ∃ e, insertSetsTx failAt pid sets k = Except.error e := by
  intro sets
  induction sets with
  | nil =>
    intro k j h1 h2 _
    simp at h2
    omega
  | cons s rest ih =>
    intro k j h1 h2 hfj
    unfold insertSetsTx
    by_cases hfk : failAt k
    · exact ⟨ServiceError.writeFailed k, by rw [if_pos hfk]⟩
    · have hjk : j ≠ k := by
        intro hh
        rw [hh] at hfj
        rw [hfj] at hfk
        exact hfk rfl
      have h1b : k + 1 ≤ j := by omega
      have h2b : j < (k + 1) + rest.length := by
        simp at h2
        omega
      obtain ⟨e, he⟩ := ih (k + 1) j h1b h2b hfj
      refine ⟨e, ?_⟩
      rw [if_neg hfk, he]


theorem reportUpdate_id (a b c d : Int) (p : Partido) :
    (reportUpdate a b c d p).id = p.id := rfl

theorem reportWrites_ok_eq (db : DBState) (failAt : Nat → Bool)
    (pid sJ1 sJ2 g l : Int) (sets : List SetPartido) (db2 : DBState)
    (h : reportWrites db failAt pid sJ1 sJ2 g l sets = Except.ok db2) :
    db2 = reportedDB db pid sJ1 sJ2 g l sets := by
  unfold reportWrites at h
  by_cases hf0 : failAt 0
  · rw [if_pos hf0] at h
    exact absurd h (fun hh => Except.noConfusion hh)
  · rw [if_neg hf0] at h
    cases hrec : insertSetsTx failAt pid sets 1 with
    | error e =>
      rw [hrec] at h
      exact absurd h (fun hh => Except.noConfusion hh)
    | ok inserted =>
      rw [hrec] at h
      rw [← Except.ok.inj h]
      unfold reportedDB
      rw [insertSetsTx_ok_eq failAt pid sets 1 inserted hrec]

theorem reportWrites_ok_of_nofail (db : DBState) (failAt : Nat → Bool)
    (pid sJ1 sJ2 g l : Int) (sets : List SetPartido)
    (h : ∀ k, k ≤ sets.length → failAt k = false) :
    reportWrites db failAt pid sJ1 sJ2 g l sets
      = Except.ok (reportedDB db pid sJ1 sJ2 g l sets) := by
  unfold reportWrites
  rw [if_neg (by simp [h 0 (Nat.zero_le _)])]
  rw [insertSetsTx_ok_of_nofail failAt pid sets 1
    (fun j hj1 hj2 => h j (by omega))]
  rfl

theorem reportWrites_error_of_fail (db : DBState) (failAt : Nat → Bool)
    (pid sJ1 sJ2 g l : Int) (sets : List SetPartido)
    (h : ∃ k, k ≤ sets.length ∧ failAt k = true) :
    ∃ e, reportWrites db failAt pid sJ1 sJ2 g l sets = Except.error e := by
  obtain ⟨k, hk, hfk⟩ := h
  unfold reportWrites
  by_cases hf0 : failAt 0
  · exact ⟨ServiceError.writeFailed 0, by rw [if_pos hf0]⟩
  · have hk1 : 1 ≤ k := by
      rcases Nat.eq_zero_or_pos k with h0 | h1
      · rw [h0] at hfk
        rw [hfk] at hf0
        exact absurd rfl hf0
      · exact h1
    obtain ⟨e, he⟩ :=
      insertSetsTx_error_of_fail failAt pid sets 1 k hk1 (by omega) hfk
    exact ⟨e, by rw [if_neg hf0, he]⟩

theorem reportMatchResult_cases (db : DBState) (failAt : Nat → Bool)
    (pid sJ1 sJ2 g : Int) (sets : List SetPartido) (p : Partido)
    (hget : getPartidoByID db pid = Except.ok p) (hnz : g ≠ 0) :
    (g = p.jugador1ID →
      ReportMatchResult db failAt pid sJ1 sJ2 g sets
        = reportWrites db failAt pid sJ1 sJ2 g p.jugador2ID sets)
    ∧ (g ≠ p.jugador1ID → g = p.jugador2ID →
      ReportMatchResult db failAt pid sJ1 sJ2 g sets
        = reportWrites db failAt pid sJ1 sJ2 g p.jugador1ID sets)
    ∧ (g ≠ p.jugador1ID → g ≠ p.jugador2ID →
      ReportMatchResult db failAt pid sJ1 sJ2 g sets
        = Except.error ServiceError.ganadorNoCorresponde) := by
  unfold ReportMatchResult
  rw [if_neg hnz, hget]
  dsimp only
  refine ⟨fun h1 => ?_, fun h1 h2 => ?_, fun h1 h2 => ?_⟩
  · rw [if_pos h1]
  · rw [if_neg h1, if_pos h2]
  · rw [if_neg h1, if_neg h2]


/-- Claim C1 (amended): with a match loaded, a nonzero winner id that equals
neither assigned player makes ReportMatchResult fail with the
ganador-no-corresponde error (the InvalidWinner error of the spec) and leave
the store unchanged; a winner id of zero instead fails with the earlier
ganador-requerido error, also leaving the store unchanged; and whenever the
call succeeds the persisted loser is the assigned player other than the
winner. -/
theorem reportResult_winner_validation
    (db : DBState) (failAt : Nat → Bool)
    (partidoID setsGanadosJ1 setsGanadosJ2 ganadorID : Int)
    (sets : List SetPartido) (p : Partido)
    (hget : getPartidoByID db partidoID = Except.ok p) :
    (ganadorID ≠ 0 → ganadorID ≠ p.jugador1ID → ganadorID ≠ p.jugador2ID →
      ReportMatchResult db failAt partidoID setsGanadosJ1 setsGanadosJ2 ganadorID sets
          = Except.error ServiceError.ganadorNoCorresponde
        ∧ applyResult db (ReportMatchResult db failAt partidoID setsGanadosJ1 setsGanadosJ2 ganadorID sets) = db)
    ∧ (ganadorID = 0 →
      ReportMatchResult db failAt partidoID setsGanadosJ1 setsGanadosJ2 ganadorID sets
          = Except.error ServiceError.ganadorRequerido
        ∧ applyResult db (ReportMatchResult db failAt partidoID setsGanadosJ1 setsGanadosJ2 ganadorID sets) = db)
    ∧ (∀ db2, ReportMatchResult db failAt partidoID setsGanadosJ1 setsGanadosJ2 ganadorID sets = Except.ok db2 →
        (ganadorID = p.jugador1ID ∧
          getPartidoByID db2 partidoID
            = Except.ok (reportUpdate setsGanadosJ1 setsGanadosJ2 ganadorID p.jugador2ID p))
        ∨ (ganadorID ≠ p.jugador1ID ∧ ganadorID = p.jugador2ID ∧
          getPartidoByID db2 partidoID
            = Except.ok (reportUpdate setsGanadosJ1 setsGanadosJ2 ganadorID p.jugador1ID p))) := by
  refine ⟨fun hnz h1 h2 => ?_, fun hz => ?_, fun db2 hok => ?_⟩
  · have he := (reportMatchResult_cases db failAt partidoID setsGanadosJ1
      setsGanadosJ2 ganadorID sets p hget hnz).2.2 h1 h2
    exact ⟨he, by rw [he]; rfl⟩
  · have he : ReportMatchResult db failAt partidoID setsGanadosJ1 setsGanadosJ2 ganadorID sets
        = Except.error ServiceError.ganadorRequerido := by
      unfold ReportMatchResult
      rw [if_pos hz]
    exact ⟨he, by rw [he]; rfl⟩
  · by_cases hz : ganadorID = 0
    · rw [show ReportMatchResult db failAt partidoID setsGanadosJ1 setsGanadosJ2 ganadorID sets
          = Except.error ServiceError.ganadorRequerido by unfold ReportMatchResult; rw [if_pos hz]] at hok
      exact absurd hok (fun hh => Except.noConfusion hh)
    · have hcases := reportMatchResult_cases db failAt partidoID setsGanadosJ1
        setsGanadosJ2 ganadorID sets p hget hz
      by_cases h1 : ganadorID = p.jugador1ID
      · left
        refine ⟨h1, ?_⟩
        rw [hcases.1 h1] at hok
        rw [reportWrites_ok_eq db failAt partidoID setsGanadosJ1 setsGanadosJ2
          ganadorID p.jugador2ID sets db2 hok]
        unfold reportedDB
        rw [getPartidoByID_update db partidoID
          (reportUpdate setsGanadosJ1 setsGanadosJ2 ganadorID p.jugador2ID)
          (fun q => rfl) _, hget]
        rfl
      · by_cases h2 : ganadorID = p.jugador2ID
        · right
          refine ⟨h1, h2, ?_⟩
          rw [hcases.2.1 h1 h2] at hok
          rw [reportWrites_ok_eq db failAt partidoID setsGanadosJ1 setsGanadosJ2
            ganadorID p.jugador1ID sets db2 hok]
          unfold reportedDB
          rw [getPartidoByID_update db partidoID
            (reportUpdate setsGanadosJ1 setsGanadosJ2 ganadorID p.jugador1ID)
            (fun q => rfl) _, hget]
          rfl
        · rw [hcases.2.2 h1 h2] at hok
          exact absurd hok (fun hh => Except.noConfusion hh)

/-- Claim C1 counterexample: for the sample match (players 1 and 2) a
ReportResult call with winner id 0 — which equals neither assigned player —
does not fail with the ganador-no-corresponde (InvalidWinner) error; it
fails with the distinct ganador-requerido error. -/
theorem reportResult_invalidWinner_counterexample :
    getPartidoByID sampleDB 10 = Except.ok samplePartido
    ∧ (0 : Int) ≠ samplePartido.jugador1ID
    ∧ (0 : Int) ≠ samplePartido.jugador2ID
    ∧ ReportMatchResult sampleDB (fun _ => false) 10 2 1 0 []
        ≠ Except.error ServiceError.ganadorNoCorresponde
    ∧ ReportMatchResult sampleDB (fun _ => false) 10 2 1 0 []
        = Except.error ServiceError.ganadorRequerido := by
  refine ⟨rfl, by decide, by decide, by decide, rfl⟩

/-- Claim C1 witness: evaluating the amended theorem on the sample store
with the invalid nonzero winner id 3. -/
theorem reportResult_winner_validation_witness :
    ReportMatchResult sampleDB (fun _ => false) 10 2 1 3 []
        = Except.error ServiceError.ganadorNoCorresponde
      ∧ applyResult sampleDB (ReportMatchResult sampleDB (fun _ => false) 10 2 1 3 []) = sampleDB :=
  (reportResult_winner_validation sampleDB (fun _ => false) 10 2 1 3 []
    samplePartido rfl).1 (by decide) (by decide) (by decide)


/-- Claim C2: with a match loaded and a winner id equal to one of the two
assigned players (and the loser the other one), ReportMatchResult is one
atomic transaction: with no failing write it succeeds and commits exactly
the match-row update (set counts, winner, inferred loser, estado
"finalizado") plus one set row per provided set; every success carries
exactly those writes; a failure of any write (the match update is write 0,
the k-th set insert is write k) makes the whole call error; and on any error
the resulting store is the unchanged original. -/
theorem reportResult_transactional
    (db : DBState) (failAt : Nat → Bool)
    (partidoID setsGanadosJ1 setsGanadosJ2 ganadorID perdedorID : Int)
    (sets : List SetPartido) (p : Partido)
    (hget : getPartidoByID db partidoID = Except.ok p)
    (hnz : ganadorID ≠ 0)
    (hwin : (ganadorID = p.jugador1ID ∧ perdedorID = p.jugador2ID)
      ∨ (ganadorID ≠ p.jugador1ID ∧ ganadorID = p.jugador2ID ∧ perdedorID = p.jugador1ID)) :
    ((∀ k, k ≤ sets.length → failAt k = false) →
      ReportMatchResult db failAt partidoID setsGanadosJ1 setsGanadosJ2 ganadorID sets
        = Except.ok (reportedDB db partidoID setsGanadosJ1 setsGanadosJ2 ganadorID perdedorID sets))
    ∧ (∀ db2, ReportMatchResult db failAt partidoID setsGanadosJ1 setsGanadosJ2 ganadorID sets = Except.ok db2 →
        getPartidoByID db2 partidoID
            = Except.ok (reportUpdate setsGanadosJ1 setsGanadosJ2 ganadorID perdedorID p)
          ∧ db2.setsPartido = db.setsPartido ++ sets.map (fun s => { s with partidoID := partidoID })
          ∧ db2.setsPartido.length = db.setsPartido.length + sets.length)
    ∧ ((∃ k, k ≤ sets.length ∧ failAt k = true) →
        ∃ e, ReportMatchResult db failAt partidoID setsGanadosJ1 setsGanadosJ2 ganadorID sets = Except.error e)
    ∧ (∀ e, ReportMatchResult db failAt partidoID setsGanadosJ1 setsGanadosJ2 ganadorID sets = Except.error e →
        applyResult db (ReportMatchResult db failAt partidoID setsGanadosJ1 setsGanadosJ2 ganadorID sets) = db) := by
  have hcases := reportMatchResult_cases db failAt partidoID setsGanadosJ1
    setsGanadosJ2 ganadorID sets p hget hnz
  have hred : ReportMatchResult db failAt partidoID setsGanadosJ1 setsGanadosJ2 ganadorID sets
      = reportWrites db failAt partidoID setsGanadosJ1 setsGanadosJ2 ganadorID perdedorID sets := by
    rcases hwin with ⟨h1, hl⟩ | ⟨h1, h2, hl⟩
    · rw [hl]
      exact hcases.1 h1
    · rw [hl]
      exact hcases.2.1 h1 h2
  refine ⟨fun hnofail => ?_, fun db2 hok => ?_, fun hfail => ?_, fun e herr => ?_⟩
  · rw [hred]
    exact reportWrites_ok_of_nofail db failAt partidoID setsGanadosJ1
      setsGanadosJ2 ganadorID perdedorID sets hnofail
  · rw [hred] at hok
    have hdb2 := reportWrites_ok_eq db failAt partidoID setsGanadosJ1
      setsGanadosJ2 ganadorID perdedorID sets db2 hok
    rw [hdb2]
    refine ⟨?_, rfl, ?_⟩
    · unfold reportedDB
      rw [getPartidoByID_update db partidoID
        (reportUpdate setsGanadosJ1 setsGanadosJ2 ganadorID perdedorID)
        (fun q => rfl) _, hget]
      rfl
    · unfold reportedDB
      simp
  · rw [hred]
    exact reportWrites_error_of_fail db failAt partidoID setsGanadosJ1
      setsGanadosJ2 ganadorID perdedorID sets hfail
  · rw [herr]
    rfl

/-- Claim C2 witness: on the sample store, reporting winner 1 with one set
row commits the finalized match row and appends exactly the one set row;
forcing the first set insert to fail makes the call error and leaves the
sample store unchanged. -/
theorem reportResult_transactional_witness :
    ReportMatchResult sampleDB (fun _ => false) 10 2 1 1 [sampleSet]
        = Except.ok (reportedDB sampleDB 10 2 1 1 2 [sampleSet])
      ∧ (∃ e, ReportMatchResult sampleDB (fun k => k == 1) 10 2 1 1 [sampleSet]
          = Except.error e) := by
  have h := reportResult_transactional sampleDB (fun _ => false) 10 2 1 1 2
    [sampleSet] samplePartido rfl (by decide) (Or.inl (by decide))
  have h2 := reportResult_transactional sampleDB (fun k => k == 1) 10 2 1 1 2
    [sampleSet] samplePartido rfl (by decide) (Or.inl (by decide))
  exact ⟨h.1 (fun k hk => rfl), h2.2.2.1 ⟨1, by decide, rfl⟩⟩


/-- Claim C3: with a match loaded, a ProposeMatchTime call by a player who
is neither assigned player fails with the jugador-no-parte (NotParticipant)
error and leaves the store — in particular both proposal slots and both
acceptance flags — unchanged. -/
theorem proposeTime_notParticipant
    (db : DBState) (partidoID jugadorID : Int) (fecha hora : DateTime)
    (p : Partido)
    (hget : getPartidoByID db partidoID = Except.ok p)
    (h1 : p.jugador1ID ≠ jugadorID) (h2 : p.jugador2ID ≠ jugadorID) :
    ProposeMatchTime db partidoID jugadorID fecha hora
        = Except.error ServiceError.jugadorNoParte
      ∧ applyResult db (ProposeMatchTime db partidoID jugadorID fecha hora) = db := by
  have he : ProposeMatchTime db partidoID jugadorID fecha hora
      = Except.error ServiceError.jugadorNoParte := by
    unfold ProposeMatchTime
    rw [hget]
    dsimp only
    rw [if_pos ⟨h1, h2⟩]
  exact ⟨he, by rw [he]; rfl⟩

/-- Claim C3 witness: player 5 proposing on the sample match (players 1
and 2) is rejected and the store is unchanged. -/
theorem proposeTime_notParticipant_witness :
    ProposeMatchTime sampleDB 10 5 100 200
        = Except.error ServiceError.jugadorNoParte
      ∧ applyResult sampleDB (ProposeMatchTime sampleDB 10 5 100 200) = sampleDB :=
  proposeTime_notParticipant sampleDB 10 5 100 200 samplePartido rfl
    (by decide) (by decide)

/-- Claim C4: with a match loaded and the caller one of the two assigned
players, ProposeMatchTime succeeds, leaves the set rows and every other
match row untouched, and rewrites the looked-up match row to exactly the
proposal slot of the caller (slot 1 when the caller is jugador1, else
slot 2) — the record update shows every other column of the row, including
the other slot, both acceptance flags, the agreed schedule and the result
columns, unchanged. -/
theorem proposeTime_writes_actor_slot
    (db : DBState) (partidoID jugadorID : Int) (fecha hora : DateTime)
    (p : Partido)
    (hget : getPartidoByID db partidoID = Except.ok p)
    (hpart : p.jugador1ID = jugadorID ∨ p.jugador2ID = jugadorID) :
    (∃ db2, ProposeMatchTime db partidoID jugadorID fecha hora = Except.ok db2)
    ∧ (applyResult db (ProposeMatchTime db partidoID jugadorID fecha hora)).setsPartido = db.setsPartido
    ∧ (∀ q, q ∈ db.partidos → q.id ≠ partidoID →
        q ∈ (applyResult db (ProposeMatchTime db partidoID jugadorID fecha hora)).partidos)
    ∧ getPartidoByID (applyResult db (ProposeMatchTime db partidoID jugadorID fecha hora)) partidoID
        = Except.ok (if p.jugador1ID = jugadorID then proposeSlot1 fecha hora p
                     else proposeSlot2 fecha hora p) := by
  have hfind := (getPartidoByID_eq_ok db partidoID p).mp hget
  have hrows := rowsWithID_ne_zero_of_find? db.partidos partidoID p hfind
  by_cases hj1 : p.jugador1ID = jugadorID
  · have he : ProposeMatchTime db partidoID jugadorID fecha hora
        = Except.ok { db with partidos := updateWhereID db.partidos partidoID (proposeSlot1 fecha hora) } := by
      unfold ProposeMatchTime
      rw [hget]
      dsimp only
      rw [if_neg (fun hc => hc.1 hj1), if_neg hrows, if_pos hj1]
    refine ⟨⟨_, he⟩, by rw [he]; rfl, ?_, ?_⟩
    · intro q hq hne
      rw [he]
      exact mem_updateWhereID_of_ne db.partidos partidoID _ q hq hne
    · rw [he, if_pos hj1]
      rw [show applyResult db (Except.ok { db with partidos := updateWhereID db.partidos partidoID (proposeSlot1 fecha hora) }) = { partidos := updateWhereID db.partidos partidoID (proposeSlot1 fecha hora), setsPartido := db.setsPartido } from rfl]
      rw [getPartidoByID_update db partidoID (proposeSlot1 fecha hora)
        (fun q => rfl) db.setsPartido, hget]
      rfl
  · have hj2 : p.jugador2ID = jugadorID := hpart.resolve_left hj1
    have he : ProposeMatchTime db partidoID jugadorID fecha hora
        = Except.ok { db with partidos := updateWhereID db.partidos partidoID (proposeSlot2 fecha hora) } := by
      unfold ProposeMatchTime
      rw [hget]
      dsimp only
      rw [if_neg (fun hc => hc.2 hj2), if_neg hrows, if_neg hj1]
    refine ⟨⟨_, he⟩, by rw [he]; rfl, ?_, ?_⟩
    · intro q hq hne
      rw [he]
      exact mem_updateWhereID_of_ne db.partidos partidoID _ q hq hne
    · rw [he, if_neg hj1]
      rw [show applyResult db (Except.ok { db with partidos := updateWhereID db.partidos partidoID (proposeSlot2 fecha hora) }) = { partidos := updateWhereID db.partidos partidoID (proposeSlot2 fecha hora), setsPartido := db.setsPartido } from rfl]
      rw [getPartidoByID_update db partidoID (proposeSlot2 fecha hora)
        (fun q => rfl) db.setsPartido, hget]
      rfl

/-- Claim C4 witness: player 2 proposing date 100 and time 200 on the
sample match writes slot 2 of the sample row and nothing else. -/
theorem proposeTime_writes_actor_slot_witness :
    getPartidoByID (applyResult sampleDB (ProposeMatchTime sampleDB 10 2 100 200)) 10
      = Except.ok (proposeSlot2 100 200 samplePartido) := by
  have h := (proposeTime_writes_actor_slot sampleDB 10 2 100 200 samplePartido
    rfl (Or.inr rfl)).2.2.2
  rw [if_neg (by decide)] at h
  exact h


/-- Claim C5: with a match loaded and the caller one of the two assigned
players, AcceptMatchTime succeeds, leaves the set rows and every other match
row untouched, and rewrites the looked-up row to exactly the acceptance flag
of the caller set to true (slot 1 when the caller is jugador1, else
slot 2) — the record update shows every other column, in particular the
agreed schedule columns fecha_agendada and hora_agendada, unchanged, with no
check that the two proposals exist or match each other. -/
theorem acceptTime_sets_own_flag
    (db : DBState) (partidoID jugadorID : Int) (p : Partido)
    (hget : getPartidoByID db partidoID = Except.ok p)
    (hpart : p.jugador1ID = jugadorID ∨ p.jugador2ID = jugadorID) :
    (∃ db2, AcceptMatchTime db partidoID jugadorID = Except.ok db2)
    ∧ (applyResult db (AcceptMatchTime db partidoID jugadorID)).setsPartido = db.setsPartido
    ∧ (∀ q, q ∈ db.partidos → q.id ≠ partidoID →
        q ∈ (applyResult db (AcceptMatchTime db partidoID jugadorID)).partidos)
    ∧ getPartidoByID (applyResult db (AcceptMatchTime db partidoID jugadorID)) partidoID
        = Except.ok (if p.jugador1ID = jugadorID then acceptSlot1 p else acceptSlot2 p) := by
  have hfind := (getPartidoByID_eq_ok db partidoID p).mp hget
  have hrows := rowsWithID_ne_zero_of_find? db.partidos partidoID p hfind
  by_cases hj1 : p.jugador1ID = jugadorID
  · have he : AcceptMatchTime db partidoID jugadorID
        = Except.ok { db with partidos := updateWhereID db.partidos partidoID acceptSlot1 } := by
      unfold AcceptMatchTime
      rw [hget]
      dsimp only
      rw [if_neg (fun hc => hc.1 hj1), if_neg hrows, if_pos hj1]
    refine ⟨⟨_, he⟩, by rw [he]; rfl, ?_, ?_⟩
    · intro q hq hne
      rw [he]
      exact mem_updateWhereID_of_ne db.partidos partidoID _ q hq hne
    · rw [he, if_pos hj1]
      rw [show applyResult db (Except.ok { db with partidos := updateWhereID db.partidos partidoID acceptSlot1 }) = { partidos := updateWhereID db.partidos partidoID acceptSlot1, setsPartido := db.setsPartido } from rfl]
      rw [getPartidoByID_update db partidoID acceptSlot1 (fun q => rfl)
        db.setsPartido, hget]
      rfl
  · have hj2 : p.jugador2ID = jugadorID := hpart.resolve_left hj1
    have he : AcceptMatchTime db partidoID jugadorID
        = Except.ok { db with partidos := updateWhereID db.partidos partidoID acceptSlot2 } := by
      unfold AcceptMatchTime
      rw [hget]
      dsimp only
      rw [if_neg (fun hc => hc.2 hj2), if_neg hrows, if_neg hj1]
    refine ⟨⟨_, he⟩, by rw [he]; rfl, ?_, ?_⟩
    · intro q hq hne
      rw [he]
      exact mem_updateWhereID_of_ne db.partidos partidoID _ q hq hne
    · rw [he, if_neg hj1]
      rw [show applyResult db (Except.ok { db with partidos := updateWhereID db.partidos partidoID acceptSlot2 }) = { partidos := updateWhereID db.partidos partidoID acceptSlot2, setsPartido := db.setsPartido } from rfl]
      rw [getPartidoByID_update db partidoID acceptSlot2 (fun q => rfl)
        db.setsPartido, hget]
      rfl

/-- Claim C5 witness: player 1 accepting on the sample match sets only its
own acceptance flag; the agreed schedule stays empty. -/
theorem acceptTime_sets_own_flag_witness :
    getPartidoByID (applyResult sampleDB (AcceptMatchTime sampleDB 10 1)) 10
        = Except.ok (acceptSlot1 samplePartido)
      ∧ (acceptSlot1 samplePartido).fechaAgendada = none
      ∧ (acceptSlot1 samplePartido).horaAgendada = none := by
  have h := (acceptTime_sets_own_flag sampleDB 10 1 samplePartido rfl
    (Or.inl rfl)).2.2.2
  rw [if_pos (by decide)] at h
  exact ⟨h, rfl, rfl⟩

/-- Claim C6: ApproveResult is idempotent on the persisted store: for every
store and match id, running it twice (keeping the old store when a run
errors) ends in the same store as running it once. -/
theorem approveResult_idempotent (db : DBState) (partidoID : Int) :
    approveResultStep (approveResultStep db partidoID) partidoID
      = approveResultStep db partidoID := by
  by_cases h : rowsWithID db.partidos partidoID = 0
  · have hstep : approveResultStep db partidoID = db := by
      unfold approveResultStep ApproveResult
      rw [if_pos h]
      rfl
    rw [hstep]
    exact hstep
  · have hstep : approveResultStep db partidoID
        = { db with partidos := updateWhereID db.partidos partidoID approveUpdate } := by
      unfold approveResultStep ApproveResult
      rw [if_neg h]
      rfl
    rw [hstep]
    unfold approveResultStep ApproveResult
    rw [if_neg (by
      rw [show ({ db with partidos := updateWhereID db.partidos partidoID approveUpdate } : DBState).partidos = updateWhereID db.partidos partidoID approveUpdate from rfl]
      rw [rowsWithID_updateWhereID db.partidos partidoID approveUpdate (fun q => rfl)]
      exact h)]
    rw [show applyResult { db with partidos := updateWhereID db.partidos partidoID approveUpdate } (Except.ok { ({ db with partidos := updateWhereID db.partidos partidoID approveUpdate } : DBState) with partidos := updateWhereID ({ db with partidos := updateWhereID db.partidos partidoID approveUpdate } : DBState).partidos partidoID approveUpdate }) = { partidos := updateWhereID (updateWhereID db.partidos partidoID approveUpdate) partidoID approveUpdate, setsPartido := db.setsPartido } from rfl]
    rw [updateWhereID_self_comp db.partidos partidoID approveUpdate
      (fun q => rfl) (fun q => rfl)]

/-- Claim C7: with a match loaded — no precondition on its result columns,
which may all be empty — ApproveResult succeeds and rewrites the looked-up
row to exactly the approval flag set to true. -/
theorem approveResult_no_precondition
    (db : DBState) (partidoID : Int) (p : Partido)
    (hget : getPartidoByID db partidoID = Except.ok p) :
    (∃ db2, ApproveResult db partidoID = Except.ok db2)
    ∧ getPartidoByID (applyResult db (ApproveResult db partidoID)) partidoID
        = Except.ok (approveUpdate p) := by
  have hfind := (getPartidoByID_eq_ok db partidoID p).mp hget
  have hrows := rowsWithID_ne_zero_of_find? db.partidos partidoID p hfind
  have he : ApproveResult db partidoID
      = Except.ok { db with partidos := updateWhereID db.partidos partidoID approveUpdate } := by
    unfold ApproveResult
    rw [if_neg hrows]
  refine ⟨⟨_, he⟩, ?_⟩
  rw [he]
  rw [show applyResult db (Except.ok { db with partidos := updateWhereID db.partidos partidoID approveUpdate }) = { partidos := updateWhereID db.partidos partidoID approveUpdate, setsPartido := db.setsPartido } from rfl]
  rw [getPartidoByID_update db partidoID approveUpdate (fun q => rfl)
    db.setsPartido, hget]
  rfl

/-- Claim C7 witness: the sample match has never had a result reported (all
four result columns empty) and ApproveResult still succeeds and flips the
approval flag. -/
theorem approveResult_no_precondition_witness :
    samplePartido.resultadoSetsJ1 = none
      ∧ samplePartido.resultadoSetsJ2 = none
      ∧ samplePartido.ganadorID = none
      ∧ samplePartido.perdedorID = none
      ∧ getPartidoByID (applyResult sampleDB (ApproveResult sampleDB 10)) 10
          = Except.ok (approveUpdate samplePartido)
      ∧ (approveUpdate samplePartido).resultadoAprobado = true :=
  ⟨rfl, rfl, rfl, rfl,
    (approveResult_no_precondition sampleDB 10 samplePartido rfl).2, rfl⟩


/-- Claim C8: for every account table, hash comparator, token generator and
login attempt, LoginUser returns the single credenciales-invalidas
(InvalidCredentials) error value both when no account with the username
exists and when the account exists but the password fails the hash
comparison — the two failure causes produce the identical error. -/
theorem login_single_error_kind
    (usuarios : List Usuario) (checkPasswordHash : String → String → Bool)
    (generateJWT : Int → String → Except ServiceError String)
    (username password : String) :
    (usuarios.find? (fun u => u.nombreUsuario == username) = none →
      LoginUser usuarios checkPasswordHash generateJWT username password
        = Except.error ServiceError.credencialesInvalidas)
    ∧ (∀ u, usuarios.find? (fun v => v.nombreUsuario == username) = some u →
        checkPasswordHash password u.passwordHash = false →
        LoginUser usuarios checkPasswordHash generateJWT username password
          = Except.error ServiceError.credencialesInvalidas) := by
  refine ⟨fun hnone => ?_, fun u hsome hbad => ?_⟩
  · unfold LoginUser
    rw [hnone]
  · unfold LoginUser
    rw [hsome]
    dsimp only
    rw [if_neg (by rw [hbad]; exact fun hh => Bool.noConfusion hh)]

/-- Claim C8 witness: an unknown username and a known username with a
rejected password produce the same error value on concrete inputs. -/
theorem login_single_error_kind_witness :
    LoginUser [] (fun _ _ => true) (fun _ _ => Except.ok "tok") "admin" "pw"
        = Except.error ServiceError.credencialesInvalidas
      ∧ LoginUser [sampleUsuario] (fun _ _ => false) (fun _ _ => Except.ok "tok") "admin" "pw"
        = Except.error ServiceError.credencialesInvalidas :=
  ⟨(login_single_error_kind [] (fun _ _ => true)
      (fun _ _ => Except.ok "tok") "admin" "pw").1 rfl,
    (login_single_error_kind [sampleUsuario] (fun _ _ => false)
      (fun _ _ => Except.ok "tok") "admin" "pw").2 sampleUsuario (by decide) rfl⟩

/-- Claim C9: for every id parser, body decoder, date and time parser, path
variable and body, the propose-time and accept-time handlers produce the
same outcome under any two authenticated subjects — the outcome never
depends on the verified credential — and whenever they reach the service
the acting player id they pass is the constant 1. -/
theorem playerID_hardcoded
    (atoi : String → Option Int) (decodeBody : String → Option ProposeTimeBody)
    (parseFecha parseHora : String → Option DateTime)
    (idVar body : String) (authA authB : Int) :
    proposeMatchTimeHandler atoi decodeBody parseFecha parseHora idVar body authA
        = proposeMatchTimeHandler atoi decodeBody parseFecha parseHora idVar body authB
    ∧ acceptMatchTimeHandler atoi idVar authA
        = acceptMatchTimeHandler atoi idVar authB
    ∧ (∀ pid jid fecha hora,
        proposeMatchTimeHandler atoi decodeBody parseFecha parseHora idVar body authA
          = ProposeOutcome.callService pid jid fecha hora → jid = 1)
    ∧ (∀ pid jid,
        acceptMatchTimeHandler atoi idVar authA
          = AcceptOutcome.callService pid jid → jid = 1) := by
  refine ⟨rfl, rfl, fun pid jid fecha hora h => ?_, fun pid jid h => ?_⟩
  · unfold proposeMatchTimeHandler at h
    cases hid : atoi idVar with
    | none =>
      rw [hid] at h
      exact absurd h (fun hh => ProposeOutcome.noConfusion hh)
    | some n =>
      rw [hid] at h
      dsimp only at h
      cases hb : decodeBody body with
      | none =>
        rw [hb] at h
        exact absurd h (fun hh => ProposeOutcome.noConfusion hh)
      | some req =>
        rw [hb] at h
        dsimp only at h
        cases hf : parseFecha req.fecha with
        | none =>
          rw [hf] at h
          exact absurd h (fun hh => ProposeOutcome.noConfusion hh)
        | some fv =>
          rw [hf] at h
          dsimp only at h
          cases hh : parseHora req.hora with
          | none =>
            rw [hh] at h
            exact absurd h (fun hhh => ProposeOutcome.noConfusion hhh)
          | some hv =>
            rw [hh] at h
            dsimp only at h
            cases h
            rfl
  · unfold acceptMatchTimeHandler at h
    cases hid : atoi idVar with
    | none =>
      rw [hid] at h
      exact absurd h (fun hh => AcceptOutcome.noConfusion hh)
    | some n =>
      rw [hid] at h
      dsimp only at h
      cases h
      rfl

/-- Claim C9 witness: with a parser returning match id 7, the accept-time
handler called under credential subject 99 invokes the service with acting
player id 1, and the theorem instantiated at that input confirms the passed
id equals 1. -/
theorem playerID_hardcoded_witness :
    acceptMatchTimeHandler (fun _ => some 7) "7" 99
        = AcceptOutcome.callService 7 1
      ∧ (1 : Int) = 1 :=
  ⟨rfl, (playerID_hardcoded (fun _ => some 7) (fun _ => none) (fun _ => none)
    (fun _ => none) "7" "body" 99 5).2.2.2 7 1 rfl⟩

/-- Claim C10: for every behaviour of the two custom denylist validators and
of the sanitizer, a register request whose decoded body carries an empty rol
(the Go zero value of a JSON body that omits the field) is answered with a
400 validation error before RegisterUser is reached, so the default-role
branch of the handler is dead; and whenever RegisterUser is reached, the
record it receives carries exactly the rol the client supplied, which is one
of the two permitted role values. -/
theorem register_default_role_unreachable
    (noSQLInjection safeString : String → Bool)
    (sanitizeString : String → String) (u : Usuario) :
    (u.rol = "" →
      registerHandler noSQLInjection safeString sanitizeString (some u)
        = (RegisterOutcome.badRequest "Datos invalidos", none))
    ∧ (∀ r, (registerHandler noSQLInjection safeString sanitizeString (some u)).2 = some r →
        r.rol = u.rol ∧ (u.rol = "administrador" ∨ u.rol = "jugador")) := by
  refine ⟨fun hrol => ?_, fun r hr => ?_⟩
  · unfold registerHandler
    dsimp only
    rw [if_neg ?_]
    intro hv
    unfold validateUsuario at hv
    rw [hrol] at hv
    simp at hv
  · unfold registerHandler at hr
    dsimp only at hr
    by_cases hv : validateUsuario noSQLInjection safeString u
    · rw [if_pos hv] at hr
      unfold validateUsuario at hv
      simp only [Bool.and_eq_true] at hv
      obtain ⟨-, hrolne, hrolone⟩ := hv
      have hrolne2 : u.rol ≠ "" := by simpa using hrolne
      by_cases hp : u.password = ""
      · rw [if_pos (by simp [hp])] at hr
        exact absurd hr (fun hh => Option.noConfusion hh)
      · rw [if_neg (by simpa using hp)] at hr
        dsimp only at hr
        rw [if_neg (by simpa using hrolne2)] at hr
        have := Option.some.inj hr
        constructor
        · rw [← this]
        · have hor : u.rol = "administrador" ∨ u.rol = "jugador" := by
            simpa using hrolone
          rcases hor with hadm | hjug
          · exact Or.inl hadm
          · exact Or.inr hjug
    · rw [if_neg hv] at hr
      exact absurd hr (fun hh => Option.noConfusion hh)

/-- Claim C10 witness: the concrete empty-rol request is answered 400 with
no service call, and the concrete valid request reaches RegisterUser with
the client-supplied rol jugador. -/
theorem register_default_role_unreachable_witness :
    registerHandler (fun _ => true) (fun _ => true) (fun s => s) (some registroSinRol)
        = (RegisterOutcome.badRequest "Datos invalidos", none)
      ∧ registroEsperado.rol = registroConRol.rol :=
  ⟨(register_default_role_unreachable (fun _ => true) (fun _ => true)
      (fun s => s) registroSinRol).1 rfl,
    ((register_default_role_unreachable (fun _ => true) (fun _ => true)
      (fun s => s) registroConRol).2 registroEsperado rfl).1⟩

end CopaLitoral
